import Mathlib

/-!
Verification of the ticket session core of the Mabel ModMail bot
(`mabel_modmail.py`): the MongoDB-backed user↔channel mapping store, the
in-process creation guard (`ACTIVE_TICKET_CREATION`), and the session
router (`handle_dm_message`, `create_new_ticket`, `forward_user_message`,
`reply_to_ticket`, `close_ticket`).

Identifiers (`user_id`, `channel_id`) are Discord snowflakes: nonnegative
machine integers, modelled as `Nat`.  At rest the store keeps them as
Python strings (`str(...)`); strings are modelled as lists of characters.
-/

namespace MabelModmail

/-! ## Python string/int coercions

`str(n)` for a nonnegative int, and the successful path of `int(s)`.
`int(s)` raises `ValueError` unless `s` is a decimal numeral (no sign, no
spaces); the raising path is modelled as `none`.
-/

abbrev PyStr := List Char

/-- The ASCII digit character for `d` (meaningful for `d < 10`). -/
def natDigitChar (d : Nat) : Char := Char.ofNat (48 + d)

/-- Is `c` an ASCII decimal digit? -/
def isAsciiDigit (c : Char) : Bool := 48 ≤ c.toNat && c.toNat ≤ 57

/-- Little-endian decimal digit characters of `n`; `fuel` bounds recursion
(any `fuel ≥ n` is exact). -/
def decCharsLE (fuel n : Nat) : List Char :=
  match fuel with
  | 0 => []
  | f + 1 => if n = 0 then [] else natDigitChar (n % 10) :: decCharsLE f (n / 10)

/-- Python `str(n)` for a nonnegative integer `n`. -/
def pyStrOfNat (n : Nat) : PyStr :=
  if n = 0 then [natDigitChar 0] else (decCharsLE (n + 1) n).reverse

/-- Python `int(s)` restricted to the nonnegative decimal numerals the bot
stores; every other input raises `ValueError`, modelled as `none`. -/
def pyIntOfStr (s : PyStr) : Option Nat :=
  if !s.isEmpty && s.all isAsciiDigit then
    some (s.foldl (fun a c => a * 10 + (c.toNat - 48)) 0)
  else
    none

theorem natDigitChar_toNat {d : Nat} (h : d < 10) : (natDigitChar d).toNat = 48 + d := by
  interval_cases d <;> rfl

theorem isAsciiDigit_natDigitChar {d : Nat} (h : d < 10) : isAsciiDigit (natDigitChar d) = true := by
  interval_cases d <;> rfl

theorem decCharsLE_all_digits (fuel : Nat) :
    ∀ n, (decCharsLE fuel n).all isAsciiDigit = true := by
  induction fuel with
  | zero => intro n; rfl
  | succ f ih =>
    intro n
    by_cases h : n = 0
    · simp [decCharsLE, h]
    · simp only [decCharsLE, if_neg h, List.all_cons, Bool.and_eq_true]
      exact ⟨isAsciiDigit_natDigitChar (Nat.mod_lt _ (by decide)), ih _⟩

theorem decCharsLE_foldr (fuel : Nat) :
    ∀ n, n ≤ fuel →
      (decCharsLE fuel n).foldr (fun c a => a * 10 + (c.toNat - 48)) 0 = n := by
  induction fuel with
  | zero =>
    intro n hn
    have : n = 0 := Nat.le_zero.mp hn
    simp [decCharsLE, this]
  | succ f ih =>
    intro n hn
    by_cases h : n = 0
    · simp [decCharsLE, h]
    · have hdiv : n / 10 ≤ f := by
        have : n / 10 < n := Nat.div_lt_self (Nat.pos_of_ne_zero h) (by decide)
        omega
      simp only [decCharsLE, if_neg h, List.foldr_cons, ih _ hdiv]
      rw [natDigitChar_toNat (Nat.mod_lt _ (by decide))]
      omega

theorem decCharsLE_ne_nil {n : Nat} (h : n ≠ 0) : decCharsLE (n + 1) n ≠ [] := by
  simp [decCharsLE, h]

/-- `int(str(n)) = n` for nonnegative `n`: the string-at-rest,
int-at-boundary coercion is an identity. -/
theorem pyIntOfStr_pyStrOfNat (n : Nat) : pyIntOfStr (pyStrOfNat n) = some n := by
  by_cases h : n = 0
  · subst h; rfl
  · have hne : decCharsLE (n + 1) n ≠ [] := decCharsLE_ne_nil h
    have hempty : ((decCharsLE (n + 1) n).reverse).isEmpty = false := by
      cases hd : decCharsLE (n + 1) n with
      | nil => exact absurd hd hne
      | cons c l => simp
    have hall : ((decCharsLE (n + 1) n).reverse).all isAsciiDigit = true := by
      rw [List.all_eq_true] at *
      intro c hc
      have := decCharsLE_all_digits (n + 1) n
      rw [List.all_eq_true] at this
      exact this c (List.mem_reverse.mp hc)
    have hfold :
        ((decCharsLE (n + 1) n).reverse).foldl (fun a c => a * 10 + (c.toNat - 48)) 0 = n := by
      rw [List.foldl_reverse]
      exact decCharsLE_foldr (n + 1) n (Nat.le_succ n)
    simp [pyStrOfNat, if_neg h, pyIntOfStr, hempty, hall, hfold]

theorem pyStrOfNat_ne_nil (n : Nat) : pyStrOfNat n ≠ [] := by
  by_cases h : n = 0
  · subst h; simp [pyStrOfNat]
  · simp only [pyStrOfNat, if_neg h]
    intro hnil
    exact decCharsLE_ne_nil h (List.reverse_eq_nil_iff.mp hnil)

/-! ## Mapping Store (MongoDB `Tickets` collection)

A document is `{"_id": str(channel_id), "user_id": str(user_id)}`
(`create_ticket_mapping`, line 89).  `_id` is the primary key; startup
runs `TICKETS_COLLECTION.create_index("user_id", unique=True)` (line 49),
so `insert_one` raises `DuplicateKeyError` when a document with the same
`_id` or the same `user_id` already exists.
-/

structure TicketDoc where
  mongoId : PyStr
  userId : PyStr
deriving DecidableEq

abbrev Store := List TicketDoc

inductive MongoError where
  | duplicateKey
deriving DecidableEq

/-- `find_one({"_id": i})`: primary-key lookup. -/
def findOneById (s : Store) (i : PyStr) : Option TicketDoc :=
  s.find? (fun d => d.mongoId == i)

/-- `find_one({"user_id": u})`: secondary-index lookup. -/
def findOneByUser (s : Store) (u : PyStr) : Option TicketDoc :=
  s.find? (fun d => d.userId == u)

/-- `insert_one(doc)`: rejected with `DuplicateKeyError` when the primary
key or the unique `user_id` index value is already present. -/
def insertOne (s : Store) (d : TicketDoc) : Except MongoError Store :=
  if s.any (fun e => e.mongoId == d.mongoId || e.userId == d.userId) then
    .error .duplicateKey
  else
    .ok (s ++ [d])

/-- `delete_one({"user_id": u})`: removes at most one matching document;
a miss is not an error (`deleted_count` is simply 0). -/
def deleteOneByUser (s : Store) (u : PyStr) : Store :=
  s.eraseP (fun d => d.userId == u)

/-! ## MongoDB utility functions (lines 74-136) -/

/-- `get_channel_id(user_id)` (lines 74-85): look the document up by
`user_id`, then return `int(result["_id"])`; a missing document, a falsy
(empty) `_id`, or a `ValueError` from `int()` all yield `None`. -/
def get_channel_id (s : Store) (user_id : Nat) : Option Nat :=
  match findOneByUser s (pyStrOfNat user_id) with
  | some doc => if doc.mongoId ≠ [] then pyIntOfStr doc.mongoId else none
  | none => none

/-- `create_ticket_mapping(user_id, channel_id)` (lines 87-90). -/
def create_ticket_mapping (s : Store) (user_id channel_id : Nat) : Except MongoError Store :=
  insertOne s ⟨pyStrOfNat channel_id, pyStrOfNat user_id⟩

/-- `delete_ticket_mapping(user_id)` (lines 92-95). -/
def delete_ticket_mapping (s : Store) (user_id : Nat) : Store :=
  deleteOneByUser s (pyStrOfNat user_id)

/-- `get_user_id_from_channel(channel_id)` (lines 97-136): primary-key
lookup of `user_id`, on an isolated connection whose failure is caught and
turned into `None` (`dbOk = false`); a missing document, a falsy
`user_id`, or a `ValueError` from `int()` all yield `None`. -/
def get_user_id_from_channel (dbOk : Bool) (s : Store) (channel_id : Nat) : Option Nat :=
  if dbOk then
    match findOneById s (pyStrOfNat channel_id) with
    | some doc => if doc.userId ≠ [] then pyIntOfStr doc.userId else none
    | none => none
  else
    none

/-! ## Effects

Observable side effects of one handler invocation, in program order.
`channelSend` covers `ctx.send` / `channel.send` / `new_channel.send`
(the embed's description carries the forwarded text); `userSend` is a
successful `user.send`; `logNote` is a `print` to the process log;
`storeDelete` is the `delete_ticket_mapping` write.
-/

inductive Effect where
  | channelSend (channel : Nat) (text : String)
  | userSend (user : Nat) (text : String)
  | deleteInvokingMessage
  | sleep (seconds : Nat)
  | channelDelete (channel : Nat)
  | storeDelete (user : Nat)
  | logNote (text : String)
deriving DecidableEq

/-- Replay the store writes of an effect trace: only `storeDelete`
(issued by `close_ticket`) touches the `Tickets` collection. -/
def runStoreEffects (s : Store) (effs : List Effect) : Store :=
  effs.foldl
    (fun st e =>
      match e with
      | .storeDelete u => delete_ticket_mapping st u
      | _ => st)
    s

/-! ## Bot environment and command context -/

/-- Platform-side facts the handlers consult: the configured modmail
category, whether `client.get_user` resolves a user, whether a DM to the
user succeeds (`False` models `discord.Forbidden` / any send failure),
and whether `client.get_channel` resolves a channel. -/
structure BotEnv where
  modmailCategoryId : Nat
  userExists : Nat → Bool
  dmOk : Nat → Bool
  channelExists : Nat → Bool

/-- The invoking command context (`ctx`): the channel the command was
issued in and that channel's category (if any). -/
structure Ctx where
  channelId : Nat
  channelCategoryId : Option Nat

def wrongCategoryMsg : String :=
  "❌ This command can only be used in a consultation channel."

def replyDmFailMsg : String :=
  "❌ Error: Cannot DM the user. They may have DMs disabled or have blocked the bot."

def replySuccessMsg : String :=
  "✅ Response sent"

def replyNotFoundMsg : String :=
  "❌ Error: Could not find the associated trainer for this consultation. Database lookup failed."

def closeDmMsg : String :=
  "✅ Professor Mabel has closed your consultation thread. Please DM the bot again to open a new one."

def closeAnnounceMsg : String :=
  "🗑️ Consultation thread closing in 5 seconds..."

def closeDmFailNote : String :=
  "Could not DM user about closure."

/-! ## Staff commands (lines 240-301) -/

/-- `reply_to_ticket` (lines 240-277).  Category gate, then
`get_user_id_from_channel`; `if user_id:` is Python truthiness, so `0`
falls through to the lookup-failure message, as does an unresolvable
user object.  A `discord.Forbidden` on `user.send` returns the DM-failure
message.  The command performs no store write; the `ctx.message.delete()`
failure is swallowed by the bare `except: pass`. -/
def reply_to_ticket (env : BotEnv) (ctx : Ctx) (dbOk : Bool) (s : Store)
    (response : String) : List Effect :=
  if ctx.channelCategoryId ≠ some env.modmailCategoryId then
    [.channelSend ctx.channelId wrongCategoryMsg]
  else
    match get_user_id_from_channel dbOk s ctx.channelId with
    | some user_id =>
      if user_id ≠ 0 then
        if env.userExists user_id then
          if env.dmOk user_id then
            [.userSend user_id response, .sleep 1,
             .channelSend ctx.channelId replySuccessMsg, .deleteInvokingMessage]
          else
            [.channelSend ctx.channelId replyDmFailMsg]
        else
          [.channelSend ctx.channelId replyNotFoundMsg]
      else
        [.channelSend ctx.channelId replyNotFoundMsg]
    | none => [.channelSend ctx.channelId replyNotFoundMsg]

/-- The unconditional tail of `close_ticket` (lines 299-301): announce,
wait the 5-second grace delay, delete the invoking channel. -/
def closingTail (channel : Nat) : List Effect :=
  [.channelSend channel closeAnnounceMsg, .sleep 5, .channelDelete channel]

/-- `close_ticket` (lines 279-301).  Category gate, then
`get_user_id_from_channel`; when a user resolves (Python-truthy), the
mapping is deleted and the user is notified best-effort (a failed DM is
only logged); in every non-rejected case the closing tail runs. -/
def close_ticket (env : BotEnv) (ctx : Ctx) (dbOk : Bool) (s : Store) : List Effect :=
  if ctx.channelCategoryId ≠ some env.modmailCategoryId then
    [.channelSend ctx.channelId wrongCategoryMsg]
  else
    match get_user_id_from_channel dbOk s ctx.channelId with
    | some user_id =>
      if user_id ≠ 0 then
        Effect.storeDelete user_id ::
          ((if env.userExists user_id then
              if env.dmOk user_id then [Effect.userSend user_id closeDmMsg]
              else [Effect.logNote closeDmFailNote]
            else []) ++ closingTail ctx.channelId)
      else
        closingTail ctx.channelId
    | none => closingTail ctx.channelId

/-! ## DM routing (lines 160-235) -/

/-- `forward_user_message(message, channel_id)` (lines 225-235):
`client.get_channel`; if the channel resolves, send the embed carrying
the message content; otherwise nothing happens — no send, no log. -/
def forward_user_message (env : BotEnv) (content : String) (channel_id : Nat) : List Effect :=
  if env.channelExists channel_id then
    [.channelSend channel_id content]
  else
    []

/-- A guild as `create_new_ticket` sees it: its category ids. -/
structure Guild where
  categories : List Nat
deriving DecidableEq

/-- Environment of one `create_new_ticket` run: the `client.get_guild`
result, the configured category id, the `guild.create_text_channel`
outcome (`.ok` with the new channel id, `.error` when the provisioner
raises), and whether `new_channel.send` succeeds. -/
structure CreateEnv where
  guild : Option Guild
  modmailCategoryId : Nat
  provisionOutcome : Except Unit Nat
  channelSendOk : Bool

/-- Whether a handler returned normally or let an exception escape. -/
inductive PyOutcome where
  | returned
  | raised
deriving DecidableEq

/-- Router-visible mutable state: the `Tickets` collection, the
`ACTIVE_TICKET_CREATION` set, and the channels handed out by
`create_text_channel` so far (in call order). -/
structure RouterState where
  store : Store
  active : Finset Nat
  created : List Nat
deriving DecidableEq

/-- `create_new_ticket(message)` (lines 186-223), executed to completion.

Control-flow notes taken from the source:
* line 189 evaluates `guild.categories` before the `if not guild or not
  category` check on line 192, so a `None` guild raises `AttributeError`
  there — before any release of `ACTIVE_TICKET_CREATION` — and the
  exception escapes (`.raised`);
* the invalid-category branch (lines 192-197) releases the guard and
  returns;
* the `try` block covers channel provisioning, the store insert and the
  staff notification; any exception is printed and the `finally` block
  releases the guard. -/
def create_new_ticket (env : CreateEnv) (user_id : Nat) (content : String)
    (st : RouterState) : PyOutcome × List Effect × RouterState :=
  match env.guild with
  | none => (.raised, [], st)
  | some g =>
    if env.modmailCategoryId ∉ g.categories then
      (.returned, [.logNote "ERROR: Guild or Category ID is invalid."],
        { st with active := st.active.erase user_id })
    else
      match env.provisionOutcome with
      | .error _ =>
        (.returned, [.logNote "FATAL ERROR IN TICKET CREATION"],
          { st with active := st.active.erase user_id })
      | .ok cid =>
        let st1 := { st with created := st.created ++ [cid] }
        match create_ticket_mapping st1.store user_id cid with
        | .error _ =>
          (.returned, [.logNote "FATAL ERROR IN TICKET CREATION"],
            { st1 with active := st1.active.erase user_id })
        | .ok s2 =>
          if env.channelSendOk then
            (.returned, [.channelSend cid content],
              { st1 with store := s2, active := st1.active.erase user_id })
          else
            (.returned, [.logNote "FATAL ERROR IN TICKET CREATION"],
              { st1 with store := s2, active := st1.active.erase user_id })

/-- `handle_dm_message(message)` (lines 170-184), executed to completion:
`get_channel_id`; on `None`, the guard membership test and `add`, then
`create_new_ticket`; otherwise `forward_user_message`. -/
def handle_dm_message (cenv : CreateEnv) (env : BotEnv) (user_id : Nat)
    (content : String) (st : RouterState) : PyOutcome × List Effect × RouterState :=
  match get_channel_id st.store user_id with
  | none =>
    if user_id ∈ st.active then
      (.returned, [], st)
    else
      create_new_ticket cenv user_id content { st with active := insert user_id st.active }
  | some cid => (.returned, forward_user_message env content cid, st)

/-! ## Interleaved executions of `handle_dm_message`

`handle_dm_message` suspends at every `await`; between two suspension
points it runs atomically on the event loop.  Each task is a phase naming
the suspension it is parked at; a scheduler (a list of task indices)
drives the interleaving.  The model fixes the healthy-creation
environment of the uniqueness claim: valid guild and category, channel
provisioning that always succeeds handing out fresh ids, sends that
succeed.

Phases against the source:
* `start`: parked at `await get_channel_id(user_id)` (line 173); the
  worker-pool read completes with a snapshot of the store;
* `gotLookup r`: resumed with `r`; runs the guard test-and-add (lines
  175-180) and, on the create path, the synchronous guild/category
  prefix of `create_new_ticket`, parking at `await
  guild.create_text_channel` (line 202); on the forward path it parks at
  the forwarding send;
* `creating`: the channel is provisioned; parks at `await
  create_ticket_mapping` (line 204);
* `inserting cid`: the insert resolves (success, or `DuplicateKeyError`
  caught by the `except`, in which case `finally` releases the guard);
  on success parks at `await new_channel.send` (line 216);
* `sending cid`: the send resolves and `finally` releases the guard;
* `forwarding cid`: the forwarding send resolves;
* `finished`: the task is done.
-/

inductive Phase where
  | start
  | gotLookup (r : Option Nat)
  | creating
  | inserting (cid : Nat)
  | sending (cid : Nat)
  | forwarding (cid : Nat)
  | finished
deriving DecidableEq

/-- A configuration of the interleaving model: shared state plus the
phase of every in-flight `handle_dm_message` task (all for the same
user), and the next fresh channel id the provisioner will hand out. -/
structure Config where
  store : Store
  active : Finset Nat
  created : List Nat
  nextChannelId : Nat
  tasks : List Phase
deriving DecidableEq

/-- One atomic segment of one task (between two suspension points). -/
def stepPhase (u : Nat) (cfg : Config) (ph : Phase) : Phase × Config :=
  match ph with
  | .start => (.gotLookup (get_channel_id cfg.store u), cfg)
  | .gotLookup r =>
    match r with
    | some cid => (.forwarding cid, cfg)
    | none =>
      if u ∈ cfg.active then (.finished, cfg)
      else (.creating, { cfg with active := insert u cfg.active })
  | .creating =>
    (.inserting cfg.nextChannelId,
      { cfg with
          created := cfg.created ++ [cfg.nextChannelId],
          nextChannelId := cfg.nextChannelId + 1 })
  | .inserting cid =>
    match create_ticket_mapping cfg.store u cid with
    | .ok s2 => (.sending cid, { cfg with store := s2 })
    | .error _ => (.finished, { cfg with active := cfg.active.erase u })
  | .sending _ => (.finished, { cfg with active := cfg.active.erase u })
  | .forwarding _ => (.finished, cfg)
  | .finished => (.finished, cfg)

/-- Run the atomic segment of task `i` (a no-op for an out-of-range
index). -/
def step (u : Nat) (cfg : Config) (i : Nat) : Config :=
  match cfg.tasks[i]? with
  | none => cfg
  | some ph =>
    let p := stepPhase u cfg ph
    { p.2 with tasks := p.2.tasks.set i p.1 }

/-- Run a schedule: at each point the event loop resumes the named task
for one atomic segment. -/
def run (u : Nat) (cfg : Config) (sched : List Nat) : Config :=
  sched.foldl (step u) cfg

/-- Number of ticket records the store holds for one user key. -/
def countUser (s : Store) (k : PyStr) : Nat :=
  (s.filter (fun d => d.userId == k)).length

/-! ## Store lemmas -/

theorem insertOne_ok {s s' : Store} {d : TicketDoc} (h : insertOne s d = .ok s') :
    (∀ e ∈ s, e.mongoId ≠ d.mongoId ∧ e.userId ≠ d.userId) ∧ s' = s ++ [d] := by
  unfold insertOne at h
  split at h
  · exact absurd h (by simp)
  · next hany =>
    rw [Bool.not_eq_true, List.any_eq_false] at hany
    refine ⟨fun e he => ?_, by injection h with h2; exact h2.symm⟩
    have := hany e he
    simp only [Bool.or_eq_true, beq_iff_eq, not_or] at this
    exact this

theorem insertOne_error_of_userId {s : Store} {d e : TicketDoc}
    (he : e ∈ s) (hu : e.userId = d.userId) : insertOne s d = .error .duplicateKey := by
  unfold insertOne
  rw [if_pos]
  rw [List.any_eq_true]
  exact ⟨e, he, by simp [hu]⟩

theorem findOneByUser_append_new {s : Store} {d : TicketDoc}
    (h : ∀ e ∈ s, e.userId ≠ d.userId) :
    findOneByUser (s ++ [d]) d.userId = some d := by
  unfold findOneByUser
  rw [List.find?_append]
  have h1 : s.find? (fun e => e.userId == d.userId) = none :=
    List.find?_eq_none.mpr (fun e he => by simp [h e he])
  rw [h1]
  simp [List.find?]

theorem findOneById_append_new {s : Store} {d : TicketDoc}
    (h : ∀ e ∈ s, e.mongoId ≠ d.mongoId) :
    findOneById (s ++ [d]) d.mongoId = some d := by
  unfold findOneById
  rw [List.find?_append]
  have h1 : s.find? (fun e => e.mongoId == d.mongoId) = none :=
    List.find?_eq_none.mpr (fun e he => by simp [h e he])
  rw [h1]
  simp [List.find?]

theorem countUser_append (s1 s2 : Store) (k : PyStr) :
    countUser (s1 ++ s2) k = countUser s1 k + countUser s2 k := by
  unfold countUser
  rw [List.filter_append, List.length_append]

theorem countUser_eq_zero {s : Store} {k : PyStr} (h : ∀ e ∈ s, e.userId ≠ k) :
    countUser s k = 0 := by
  unfold countUser
  rw [List.length_eq_zero, List.filter_eq_nil_iff]
  intro e he
  simp [h e he]

/-- `C2`: for every open ticket created via
`create_ticket_mapping(userId, channelId)`, both lookups round-trip
simultaneously: `get_channel_id(userId)` returns `channelId` and
`get_user_id_from_channel(channelId)` returns `userId` — the
string-at-rest, int-at-boundary key coercion is an identity on the
stored pair. -/
theorem mapping_round_trips {s s' : Store} {u c : Nat}
    (h : create_ticket_mapping s u c = .ok s') :
    get_channel_id s' u = some c ∧ get_user_id_from_channel true s' c = some u := by
  obtain ⟨hfresh, rfl⟩ := insertOne_ok h
  constructor
  · unfold get_channel_id
    rw [show pyStrOfNat u = (TicketDoc.mk (pyStrOfNat c) (pyStrOfNat u)).userId from rfl,
      findOneByUser_append_new (fun e he => (hfresh e he).2)]
    simp [pyStrOfNat_ne_nil c, pyIntOfStr_pyStrOfNat c]
  · unfold get_user_id_from_channel
    rw [if_pos rfl,
      show pyStrOfNat c = (TicketDoc.mk (pyStrOfNat c) (pyStrOfNat u)).mongoId from rfl,
      findOneById_append_new (fun e he => (hfresh e he).1)]
    simp [pyStrOfNat_ne_nil u, pyIntOfStr_pyStrOfNat u]

/-- `C2` witness: creating the ticket `(7, 100)` in an empty store makes
both lookups round-trip. -/
theorem mapping_round_trips_witness :
    get_channel_id [⟨pyStrOfNat 100, pyStrOfNat 7⟩] 7 = some 100 ∧
    get_user_id_from_channel true [⟨pyStrOfNat 100, pyStrOfNat 7⟩] 100 = some 7 :=
  mapping_round_trips (s := []) (u := 7) (c := 100) rfl

/-- `C5`: the store's create operation fails with `DuplicateKeyError`
whenever a record for the same `userId` already exists (the unique index
on `user_id`, not caller-side checking, enforces uniqueness), and the
failure is surfaced to the creation path: `create_new_ticket` takes its
exception branch and commits no duplicate — the store is left unchanged. -/
theorem duplicate_create_rejected (s : Store) (u c : Nat) (d : TicketDoc)
    (env : CreateEnv) (g : Guild) (content : String) (st : RouterState)
    (hd : d ∈ s) (hu : d.userId = pyStrOfNat u)
    (hg : env.guild = some g) (hcat : env.modmailCategoryId ∈ g.categories)
    (hprov : env.provisionOutcome = .ok c) (hst : st.store = s) :
    create_ticket_mapping s u c = .error .duplicateKey ∧
    (create_new_ticket env u content st).2.2.store = s ∧
    (create_new_ticket env u content st).2.1 = [.logNote "FATAL ERROR IN TICKET CREATION"] := by
  have hins : create_ticket_mapping s u c = .error .duplicateKey :=
    insertOne_error_of_userId hd hu
  refine ⟨hins, ?_⟩
  unfold create_new_ticket
  rw [hg]
  simp only [hprov, hst]
  rw [if_neg (by simp [hcat]), hins]
  exact ⟨rfl, rfl⟩

/-- `C5` witness: with `(7, 100)` already stored, inserting a ticket for
user `7` under channel `101` is rejected and `create_new_ticket` leaves
the store unchanged. -/
theorem duplicate_create_rejected_witness :
    create_ticket_mapping [⟨pyStrOfNat 100, pyStrOfNat 7⟩] 7 101 = .error .duplicateKey ∧
    (create_new_ticket ⟨some ⟨[500]⟩, 500, .ok 101, true⟩ 7 "hi"
        ⟨[⟨pyStrOfNat 100, pyStrOfNat 7⟩], {7}, []⟩).2.2.store =
      [⟨pyStrOfNat 100, pyStrOfNat 7⟩] ∧
    (create_new_ticket ⟨some ⟨[500]⟩, 500, .ok 101, true⟩ 7 "hi"
        ⟨[⟨pyStrOfNat 100, pyStrOfNat 7⟩], {7}, []⟩).2.1 =
      [.logNote "FATAL ERROR IN TICKET CREATION"] :=
  duplicate_create_rejected [⟨pyStrOfNat 100, pyStrOfNat 7⟩] 7 101
    ⟨pyStrOfNat 100, pyStrOfNat 7⟩ ⟨some ⟨[500]⟩, 500, .ok 101, true⟩ ⟨[500]⟩ "hi"
    ⟨[⟨pyStrOfNat 100, pyStrOfNat 7⟩], {7}, []⟩
    (by decide) rfl rfl (by decide) rfl rfl

/-- `C9`: both lookups are total at the public interface: a stored record
whose persisted id field does not parse as an integer yields `none`
rather than raising, and a missing record also yields `none`. -/
theorem lookups_total (s : Store) (u c : Nat) :
    (findOneByUser s (pyStrOfNat u) = none → get_channel_id s u = none) ∧
    (∀ d, findOneByUser s (pyStrOfNat u) = some d → pyIntOfStr d.mongoId = none →
      get_channel_id s u = none) ∧
    (findOneById s (pyStrOfNat c) = none → get_user_id_from_channel true s c = none) ∧
    (∀ d, findOneById s (pyStrOfNat c) = some d → pyIntOfStr d.userId = none →
      get_user_id_from_channel true s c = none) := by
  refine ⟨fun h => ?_, fun d hd hp => ?_, fun h => ?_, fun d hd hp => ?_⟩
  · unfold get_channel_id
    rw [h]
  · simp only [get_channel_id, hd]
    split <;> simp [hp]
  · unfold get_user_id_from_channel
    rw [if_pos rfl, h]
  · simp only [get_user_id_from_channel, if_true, hd]
    split <;> simp [hp]

/-- `C9` witness: a store holding the record `("abc", "7")` (an `_id`
that `int()` rejects) and the record `("100", "xy")` (a `user_id` that
`int()` rejects) makes both lookups return `none`. -/
theorem lookups_total_witness :
    get_channel_id [⟨['a', 'b', 'c'], pyStrOfNat 7⟩, ⟨pyStrOfNat 100, ['x', 'y']⟩] 7 = none ∧
    get_user_id_from_channel true
      [⟨['a', 'b', 'c'], pyStrOfNat 7⟩, ⟨pyStrOfNat 100, ['x', 'y']⟩] 100 = none :=
  ⟨(lookups_total [⟨['a', 'b', 'c'], pyStrOfNat 7⟩, ⟨pyStrOfNat 100, ['x', 'y']⟩] 7 100).2.1
      ⟨['a', 'b', 'c'], pyStrOfNat 7⟩ (by decide) (by decide),
   (lookups_total [⟨['a', 'b', 'c'], pyStrOfNat 7⟩, ⟨pyStrOfNat 100, ['x', 'y']⟩] 7 100).2.2.2
      ⟨pyStrOfNat 100, ['x', 'y']⟩ (by decide) (by decide)⟩

/-! ## Concurrency: creation uniqueness -/

theorem stepPhase_store_count (u : Nat) (cfg : Config) (ph : Phase)
    (h : countUser cfg.store (pyStrOfNat u) ≤ 1) :
    countUser (stepPhase u cfg ph).2.store (pyStrOfNat u) ≤ 1 := by
  cases ph with
  | start => exact h
  | gotLookup r =>
    cases r with
    | some cid => exact h
    | none =>
      simp only [stepPhase]
      by_cases hmem : u ∈ cfg.active <;> simp [hmem, h]
  | creating => exact h
  | inserting cid =>
    simp only [stepPhase]
    split
    · next s2 hins =>
      obtain ⟨hfresh, hs⟩ := insertOne_ok hins
      subst hs
      show countUser (cfg.store ++ [TicketDoc.mk (pyStrOfNat cid) (pyStrOfNat u)])
        (pyStrOfNat u) ≤ 1
      rw [countUser_append, countUser_eq_zero (fun e he => (hfresh e he).2)]
      simp [countUser]
    · exact h
  | sending cid => exact h
  | forwarding cid => exact h
  | finished => exact h

theorem step_store_count (u : Nat) (cfg : Config) (i : Nat)
    (h : countUser cfg.store (pyStrOfNat u) ≤ 1) :
    countUser (step u cfg i).store (pyStrOfNat u) ≤ 1 := by
  unfold step
  split
  · exact h
  · next ph _ => exact stepPhase_store_count u cfg ph h

/-- `C1` counterexample: two concurrent `handle_dm_message` tasks for
user `7` on an empty store, under the schedule where both store lookups
snapshot the empty store before the first creation commits, and the
second task resumes only after the first has released the guard: both
tasks run to completion, `create_text_channel` is performed twice
(channels `100` and `101` are both provisioned), even though only one
ticket record lands in the store.  This refutes the claim that no
interleaving provisions two channels for one user. -/
theorem two_channels_provisioned_for_one_user :
    (run 7 ⟨[], ∅, [], 100, [.start, .start]⟩ [0, 1, 0, 0, 0, 0, 1, 1, 1]).created =
      [100, 101] ∧
    (run 7 ⟨[], ∅, [], 100, [.start, .start]⟩ [0, 1, 0, 0, 0, 0, 1, 1, 1]).tasks =
      [.finished, .finished] ∧
    countUser (run 7 ⟨[], ∅, [], 100, [.start, .start]⟩ [0, 1, 0, 0, 0, 0, 1, 1, 1]).store
      (pyStrOfNat 7) = 1 := by
  decide

theorem countUser_run_le (u : Nat) (cfg : Config) (sched : List Nat)
    (h : countUser cfg.store (pyStrOfNat u) ≤ 1) :
    countUser (run u cfg sched).store (pyStrOfNat u) ≤ 1 := by
  induction sched generalizing cfg with
  | nil => exact h
  | cons i rest ih => exact ih (step u cfg i) (step_store_count u cfg i h)

theorem stepPhase_store_mono (u : Nat) (cfg : Config) (ph : Phase) :
    countUser cfg.store (pyStrOfNat u) ≤
      countUser (stepPhase u cfg ph).2.store (pyStrOfNat u) := by
  cases ph with
  | start => exact le_refl _
  | gotLookup r =>
    cases r with
    | some cid => exact le_refl _
    | none =>
      simp only [stepPhase]
      split <;> exact le_refl _
  | creating => exact le_refl _
  | inserting cid =>
    simp only [stepPhase]
    split
    · next s2 hins =>
      obtain ⟨_, hs⟩ := insertOne_ok hins
      subst hs
      rw [countUser_append]
      exact Nat.le_add_right _ _
    · exact le_refl _
  | sending cid => exact le_refl _
  | forwarding cid => exact le_refl _
  | finished => exact le_refl _

theorem countUser_step_mono (u : Nat) (cfg : Config) (i : Nat) :
    countUser cfg.store (pyStrOfNat u) ≤ countUser (step u cfg i).store (pyStrOfNat u) := by
  unfold step
  split
  · exact le_refl _
  · next ph _ => exact stepPhase_store_mono u cfg ph

theorem mem_set_of_mem_of_ne {α : Type} {l : List α} {q y ph : α} {i : Nat}
    (hi : i < l.length) (hphi : l[i] = ph) (hq : q ∈ l) (hne : q ≠ ph) :
    q ∈ l.set i y := by
  obtain ⟨j, hj, hjq⟩ := List.mem_iff_getElem.mp hq
  have hji : i ≠ j := by
    rintro rfl
    exact hne (by rw [← hjq, hphi])
  have hj2 : j < (l.set i y).length := by
    rw [List.length_set]
    exact hj
  have hsame : (l.set i y)[j] = l[j] := List.getElem_set_ne hji hj2
  rw [← hjq, ← hsame]
  exact List.getElem_mem hj2

theorem mem_set_self {α : Type} {l : List α} {y : α} {i : Nat} (hi : i < l.length) :
    y ∈ l.set i y := by
  have h2 : i < (l.set i y).length := by
    rw [List.length_set]
    exact hi
  exact List.mem_iff_getElem.mpr ⟨i, h2, List.getElem_set_self h2⟩

/-- A task mid-creation: it holds the guard (it has run the `add` on
line 180 but not yet the release in `create_new_ticket`'s `finally` or
its exception branch). -/
def midPhase : Phase → Prop
  | .creating => True
  | .inserting _ => True
  | _ => False

/-- Phases reachable while the store is still empty: lookups can only
have snapshotted `None`, and no task can be past a successful insert. -/
def okPhase : Phase → Prop
  | .start => True
  | .gotLookup r => r = none
  | .creating => True
  | .inserting _ => True
  | .sending _ => False
  | .forwarding _ => False
  | .finished => True

theorem midPhase_ne_finished {q : Phase} (h : midPhase q) : q ≠ Phase.finished := by
  cases q <;> simp [midPhase] at h ⊢

theorem midPhase_ne_start {q : Phase} (h : midPhase q) : q ≠ Phase.start := by
  cases q <;> simp [midPhase] at h ⊢

theorem midPhase_ne_gotLookup {q : Phase} (h : midPhase q) (r : Option Nat) :
    q ≠ Phase.gotLookup r := by
  cases q <;> simp [midPhase] at h ⊢

/-- While no record for the user has landed yet, every task is in an
empty-store-compatible phase, the guard flag is held exactly when some
task is mid-creation, and not every task has finished. -/
def GoodCfg (u : Nat) (cfg : Config) : Prop :=
  cfg.store = [] ∧
  (∀ ph ∈ cfg.tasks, okPhase ph) ∧
  (u ∈ cfg.active ↔ ∃ ph ∈ cfg.tasks, midPhase ph) ∧
  (∃ ph ∈ cfg.tasks, ph ≠ Phase.finished)

/-- Inductive invariant of the interleaving model: either a record for
the user is already in the store (and stays, since this model never
deletes), or the run is still in the `GoodCfg` regime. -/
def CreateInv (u : Nat) (cfg : Config) : Prop :=
  1 ≤ countUser cfg.store (pyStrOfNat u) ∨ GoodCfg u cfg

theorem step_preserves_createInv (u : Nat) (cfg : Config) (i : Nat)
    (h : CreateInv u cfg) : CreateInv u (step u cfg i) := by
  rcases h with hge | ⟨hstore, hok, hiff, hnf⟩
  · exact Or.inl (le_trans hge (countUser_step_mono u cfg i))
  · cases hti : cfg.tasks[i]? with
    | none =>
      right
      unfold step
      rw [hti]
      exact ⟨hstore, hok, hiff, hnf⟩
    | some ph =>
      obtain ⟨hilen, hphi⟩ := List.getElem?_eq_some.mp hti
      have hphmem : ph ∈ cfg.tasks := hphi ▸ List.getElem_mem hilen
      have hstep : step u cfg i =
          { (stepPhase u cfg ph).2 with
              tasks := (stepPhase u cfg ph).2.tasks.set i (stepPhase u cfg ph).1 } := by
        unfold step
        rw [hti]
      rw [hstep]
      cases ph with
      | sending cid => exact (hok _ hphmem).elim
      | forwarding cid => exact (hok _ hphmem).elim
      | start =>
        have hlook : get_channel_id cfg.store u = none := by
          rw [hstore]
          rfl
        simp only [stepPhase]
        rw [hlook]
        right
        refine ⟨hstore, ?_, ?_, ?_⟩
        · intro q hq
          rcases List.mem_or_eq_of_mem_set hq with hql | rfl
          · exact hok q hql
          · exact rfl
        · constructor
          · intro hu
            obtain ⟨q, hql, hqm⟩ := hiff.mp hu
            exact ⟨q, mem_set_of_mem_of_ne hilen hphi hql (midPhase_ne_start hqm), hqm⟩
          · rintro ⟨q, hql, hqm⟩
            rcases List.mem_or_eq_of_mem_set hql with hql2 | rfl
            · exact hiff.mpr ⟨q, hql2, hqm⟩
            · exact hqm.elim
        · exact ⟨Phase.gotLookup none, mem_set_self hilen, by simp⟩
      | gotLookup r =>
        have hr : r = none := hok _ hphmem
        subst hr
        simp only [stepPhase]
        by_cases hu : u ∈ cfg.active
        · rw [if_pos hu]
          obtain ⟨q, hql, hqm⟩ := hiff.mp hu
          have hqset : q ∈ cfg.tasks.set i Phase.finished :=
            mem_set_of_mem_of_ne hilen hphi hql (midPhase_ne_gotLookup hqm none)
          right
          refine ⟨hstore, ?_, ?_, ?_⟩
          · intro p hp
            rcases List.mem_or_eq_of_mem_set hp with hpl | rfl
            · exact hok p hpl
            · exact trivial
          · exact ⟨fun _ => ⟨q, hqset, hqm⟩, fun _ => hu⟩
          · exact ⟨q, hqset, midPhase_ne_finished hqm⟩
        · rw [if_neg hu]
          right
          refine ⟨hstore, ?_, ?_, ?_⟩
          · intro p hp
            rcases List.mem_or_eq_of_mem_set hp with hpl | rfl
            · exact hok p hpl
            · exact trivial
          · exact ⟨fun _ => ⟨Phase.creating, mem_set_self hilen, trivial⟩,
              fun _ => Finset.mem_insert_self u cfg.active⟩
          · exact ⟨Phase.creating, mem_set_self hilen, by simp⟩
      | creating =>
        right
        refine ⟨hstore, ?_, ?_, ?_⟩
        · intro p hp
          rcases List.mem_or_eq_of_mem_set hp with hpl | rfl
          · exact hok p hpl
          · exact trivial
        · exact ⟨fun _ => ⟨Phase.inserting cfg.nextChannelId, mem_set_self hilen, trivial⟩,
            fun _ => hiff.mpr ⟨Phase.creating, hphmem, trivial⟩⟩
        · exact ⟨Phase.inserting cfg.nextChannelId, mem_set_self hilen, by simp⟩
      | inserting c =>
        have hins : create_ticket_mapping cfg.store u c =
            .ok [⟨pyStrOfNat c, pyStrOfNat u⟩] := by
          rw [hstore]
          rfl
        simp only [stepPhase, hins]
        left
        simp [countUser]
      | finished =>
        right
        refine ⟨hstore, ?_, ?_, ?_⟩
        · intro p hp
          rcases List.mem_or_eq_of_mem_set hp with hpl | rfl
          · exact hok p hpl
          · exact trivial
        · constructor
          · intro hu
            obtain ⟨q, hql, hqm⟩ := hiff.mp hu
            exact ⟨q, mem_set_of_mem_of_ne hilen hphi hql (midPhase_ne_finished hqm), hqm⟩
          · rintro ⟨q, hql, hqm⟩
            rcases List.mem_or_eq_of_mem_set hql with hql2 | rfl
            · exact hiff.mpr ⟨q, hql2, hqm⟩
            · exact (midPhase_ne_finished hqm rfl).elim
        · obtain ⟨q, hql, hqne⟩ := hnf
          exact ⟨q, mem_set_of_mem_of_ne hilen hphi hql hqne, hqne⟩

theorem run_preserves_createInv (u : Nat) (cfg : Config) (sched : List Nat)
    (h : CreateInv u cfg) : CreateInv u (run u cfg sched) := by
  induction sched generalizing cfg with
  | nil => exact h
  | cons i rest ih => exact ih (step u cfg i) (step_preserves_createInv u cfg i h)

/-- `C1` (amended): for every interleaving of `n ≥ 1` concurrent
`handle_dm_message` attempts from the same `userId` starting with no
mapping, the store never holds more than one ticket record for that
user at any point, and every completed interleaving (all attempts have
terminated) ends with *exactly one* ticket record inserted — the
store's unique index, not the guard, enforces record uniqueness;
channel provisioning, however, is not unique: a handler resumed with a
stale absent lookup after the guard was released calls
`create_text_channel` a second time. -/
theorem exactly_one_ticket_record (u b n : Nat) (hn : 1 ≤ n) :
    (∀ sched : List Nat,
      countUser (run u ⟨[], ∅, [], b, List.replicate n .start⟩ sched).store
        (pyStrOfNat u) ≤ 1) ∧
    ∀ sched : List Nat,
      (∀ ph ∈ (run u ⟨[], ∅, [], b, List.replicate n .start⟩ sched).tasks,
        ph = Phase.finished) →
      countUser (run u ⟨[], ∅, [], b, List.replicate n .start⟩ sched).store
        (pyStrOfNat u) = 1 := by
  have hle : ∀ sched : List Nat,
      countUser (run u ⟨[], ∅, [], b, List.replicate n .start⟩ sched).store
        (pyStrOfNat u) ≤ 1 :=
    fun sched => countUser_run_le u _ sched (by simp [countUser])
  refine ⟨hle, fun sched hfin => ?_⟩
  have hinv : CreateInv u (run u ⟨[], ∅, [], b, List.replicate n .start⟩ sched) := by
    apply run_preserves_createInv
    right
    refine ⟨rfl, ?_, ?_, ?_⟩
    · intro q hq
      rw [List.mem_replicate] at hq
      rw [hq.2]
      exact trivial
    · constructor
      · intro hu
        exact absurd hu (by simp)
      · rintro ⟨q, hq, hqm⟩
        rw [List.mem_replicate] at hq
        rw [hq.2] at hqm
        exact hqm.elim
    · refine ⟨Phase.start, ?_, by simp⟩
      rw [List.mem_replicate]
      exact ⟨by omega, rfl⟩
  rcases hinv with hge | ⟨_, _, _, q, hq, hqne⟩
  · have := hle sched
    omega
  · exact absurd (hfin q hq) hqne

/-- `C1` witness: the exactly-one-record guarantee applied to the
concrete completed double-provisioning interleaving of two attempts. -/
theorem exactly_one_ticket_record_witness :
    countUser (run 7 ⟨[], ∅, [], 100, List.replicate 2 .start⟩
      [0, 1, 0, 0, 0, 0, 1, 1, 1]).store (pyStrOfNat 7) = 1 :=
  (exactly_one_ticket_record 7 100 2 (by decide)).2 [0, 1, 0, 0, 0, 0, 1, 1, 1] (by decide)

/-- `C3`: evaluation at the failing input.  When `client.get_guild`
returns `None` (invalid `GUILD_ID`), `create_new_ticket` raises
`AttributeError` at `guild.categories` (line 189) before the
release branch on lines 192-197 can run, so the user stays in
`ACTIVE_TICKET_CREATION` forever and every later DM from them is
dropped by the guard; the claimed always-release property fails.  By
contrast, a provisioning failure with a valid guild does release the
guard. -/
theorem guard_leaked_when_guild_missing :
    (create_new_ticket ⟨none, 500, .ok 100, true⟩ 7 "help" ⟨[], {7}, []⟩).1 = .raised ∧
    7 ∈ (create_new_ticket ⟨none, 500, .ok 100, true⟩ 7 "help" ⟨[], {7}, []⟩).2.2.active ∧
    (create_new_ticket ⟨some ⟨[500]⟩, 500, .error (), true⟩ 7 "help"
        ⟨[], {7}, []⟩).2.2.active = ∅ := by
  decide

/-! ## Command-handler claims -/

/-- `C4` counterexample: after closing ticket `(7, 100)` once the mapping
is gone, and a second `close` in the same channel does not report "not
found": its full effect trace is the closing announcement, the grace
sleep, and the channel deletion — no error or not-found response of any
kind. -/
theorem second_close_does_not_report_not_found :
    Effect.storeDelete 7 ∈
      close_ticket ⟨500, fun _ => true, fun _ => true, fun _ => true⟩ ⟨100, some 500⟩ true
        [⟨pyStrOfNat 100, pyStrOfNat 7⟩] ∧
    runStoreEffects [⟨pyStrOfNat 100, pyStrOfNat 7⟩]
      (close_ticket ⟨500, fun _ => true, fun _ => true, fun _ => true⟩ ⟨100, some 500⟩ true
        [⟨pyStrOfNat 100, pyStrOfNat 7⟩]) = [] ∧
    close_ticket ⟨500, fun _ => true, fun _ => true, fun _ => true⟩ ⟨100, some 500⟩ true [] =
      [.channelSend 100 closeAnnounceMsg, .sleep 5, .channelDelete 100] := by
  decide

/-- `C4` (amended): closing the same ticket twice does not throw (the
handler is a total function): the first close issues the store deletion;
the second close resolves no user, performs no store deletion and no
user notification, and — rather than reporting "not found" — still
announces closure and deletes the channel.  The store-level
`delete_one` miss is a silent no-op, not a surfaced `NotFound` failure. -/
theorem close_twice_behaviour (env : BotEnv) (ctx : Ctx) (s s2 : Store) (u : Nat)
    (hcat : ctx.channelCategoryId = some env.modmailCategoryId)
    (h1 : get_user_id_from_channel true s ctx.channelId = some u) (hu : u ≠ 0)
    (h2 : get_user_id_from_channel true s2 ctx.channelId = none) :
    Effect.storeDelete u ∈ close_ticket env ctx true s ∧
    close_ticket env ctx true s2 = closingTail ctx.channelId ∧
    runStoreEffects s2 (close_ticket env ctx true s2) = s2 := by
  have hne : ¬ ctx.channelCategoryId ≠ some env.modmailCategoryId := by simp [hcat]
  have hc2 : close_ticket env ctx true s2 = closingTail ctx.channelId := by
    simp only [close_ticket, if_neg hne, h2]
  refine ⟨?_, hc2, by rw [hc2]; rfl⟩
  simp only [close_ticket, if_neg hne, h1]
  rw [if_pos hu]
  exact List.mem_cons_self _ _

/-- `C4` witness: the double close at the concrete ticket `(7, 100)`. -/
theorem close_twice_behaviour_witness :
    Effect.storeDelete 7 ∈
      close_ticket ⟨500, fun _ => true, fun _ => true, fun _ => true⟩ ⟨100, some 500⟩ true
        [⟨pyStrOfNat 100, pyStrOfNat 7⟩] ∧
    close_ticket ⟨500, fun _ => true, fun _ => true, fun _ => true⟩ ⟨100, some 500⟩ true [] =
      closingTail 100 ∧
    runStoreEffects []
      (close_ticket ⟨500, fun _ => true, fun _ => true, fun _ => true⟩ ⟨100, some 500⟩ true
        []) = [] :=
  close_twice_behaviour ⟨500, fun _ => true, fun _ => true, fun _ => true⟩ ⟨100, some 500⟩
    [⟨pyStrOfNat 100, pyStrOfNat 7⟩] [] 7 rfl (by decide) (by decide) (by decide)

/-- `C6` counterexample: a DM from user `7` whose stored mapping points
at channel `100`, which `client.get_channel` no longer resolves
(orphaned mapping): the message is dropped with an empty effect trace —
nothing is sent and nothing is logged, so the anomaly is not reported. -/
theorem orphaned_forward_is_silent :
    handle_dm_message ⟨some ⟨[500]⟩, 500, .ok 101, true⟩
        ⟨500, fun _ => true, fun _ => true, fun _ => false⟩ 7 "hello"
        ⟨[⟨pyStrOfNat 100, pyStrOfNat 7⟩], ∅, []⟩ =
      (.returned, [], ⟨[⟨pyStrOfNat 100, pyStrOfNat 7⟩], ∅, []⟩) := by
  decide

/-- `C6` (amended): for an inbound user message in the Open state the
router resolves the channel via the store and forwards the message
content into that channel; if the channel no longer resolves (orphaned
mapping) the message is dropped silently — no anomaly is reported and no
state changes. -/
theorem open_state_forwarding (cenv : CreateEnv) (env : BotEnv) (st : RouterState)
    (u c : Nat) (content : String)
    (h : get_channel_id st.store u = some c) :
    handle_dm_message cenv env u content st =
      (.returned, if env.channelExists c then [.channelSend c content] else [], st) := by
  simp only [handle_dm_message, h, forward_user_message]

/-- `C6` witness: forwarding at the concrete mapping `(7, 100)` with the
channel alive. -/
theorem open_state_forwarding_witness :
    handle_dm_message ⟨some ⟨[500]⟩, 500, .ok 101, true⟩
        ⟨500, fun _ => true, fun _ => true, fun _ => true⟩ 7 "hi"
        ⟨[⟨pyStrOfNat 100, pyStrOfNat 7⟩], ∅, []⟩ =
      (.returned, [.channelSend 100 "hi"], ⟨[⟨pyStrOfNat 100, pyStrOfNat 7⟩], ∅, []⟩) :=
  open_state_forwarding ⟨some ⟨[500]⟩, 500, .ok 101, true⟩
    ⟨500, fun _ => true, fun _ => true, fun _ => true⟩
    ⟨[⟨pyStrOfNat 100, pyStrOfNat 7⟩], ∅, []⟩ 7 100 "hi" (by decide)

/-- `C7`: when a staff reply resolves a mapped user but the DM is
refused by the platform (`discord.Forbidden`), the failure is reported
back to the invoking channel and the ticket state is untouched: the
reply's effect trace is exactly the error response, which contains no
store write, so replaying it leaves the store unchanged. -/
theorem reply_delivery_failure_frame (env : BotEnv) (ctx : Ctx) (s : Store) (u : Nat)
    (resp : String)
    (hcat : ctx.channelCategoryId = some env.modmailCategoryId)
    (hl : get_user_id_from_channel true s ctx.channelId = some u) (hu : u ≠ 0)
    (hex : env.userExists u = true) (hdm : env.dmOk u = false) :
    reply_to_ticket env ctx true s resp = [.channelSend ctx.channelId replyDmFailMsg] ∧
    runStoreEffects s (reply_to_ticket env ctx true s resp) = s := by
  have hne : ¬ ctx.channelCategoryId ≠ some env.modmailCategoryId := by simp [hcat]
  have heq : reply_to_ticket env ctx true s resp =
      [.channelSend ctx.channelId replyDmFailMsg] := by
    simp only [reply_to_ticket, if_neg hne, hl]
    rw [if_pos hu, if_pos hex, if_neg (by simp [hdm])]
  exact ⟨heq, by rw [heq]; rfl⟩

/-- `C7` witness: a refused DM to the mapped user `7` of channel `100`. -/
theorem reply_delivery_failure_frame_witness :
    reply_to_ticket ⟨500, fun _ => true, fun _ => false, fun _ => true⟩ ⟨100, some 500⟩ true
        [⟨pyStrOfNat 100, pyStrOfNat 7⟩] "hello" = [.channelSend 100 replyDmFailMsg] ∧
    runStoreEffects [⟨pyStrOfNat 100, pyStrOfNat 7⟩]
      (reply_to_ticket ⟨500, fun _ => true, fun _ => false, fun _ => true⟩ ⟨100, some 500⟩
        true [⟨pyStrOfNat 100, pyStrOfNat 7⟩] "hello") = [⟨pyStrOfNat 100, pyStrOfNat 7⟩] :=
  reply_delivery_failure_frame ⟨500, fun _ => true, fun _ => false, fun _ => true⟩
    ⟨100, some 500⟩ [⟨pyStrOfNat 100, pyStrOfNat 7⟩] 7 "hello" rfl (by decide) (by decide)
    rfl rfl

/-- `C8` counterexample: a `close` issued inside the ticket category in a
channel with no live mapping is not rejected: it announces closure and
deletes the invoking channel — a state change the claim rules out. -/
theorem close_without_mapping_deletes_channel :
    Effect.channelDelete 100 ∈
      close_ticket ⟨500, fun _ => true, fun _ => true, fun _ => true⟩ ⟨100, some 500⟩ true
        [] := by
  decide

/-- `C8` (amended): a reply or close outside the ticket category, and a
reply with no live mapping, are rejected with an explanatory response
and cause no state change (no store write, no user delivery, no channel
deletion); a close inside the category with no live mapping, however,
performs no store write and no user delivery but is not rejected: it
announces closure and deletes the invoking channel. -/
theorem commands_outside_scope (env : BotEnv) (ctx : Ctx) (dbOk : Bool)
    (s : Store) (resp : String) :
    (ctx.channelCategoryId ≠ some env.modmailCategoryId →
      reply_to_ticket env ctx dbOk s resp = [.channelSend ctx.channelId wrongCategoryMsg] ∧
      close_ticket env ctx dbOk s = [.channelSend ctx.channelId wrongCategoryMsg] ∧
      runStoreEffects s (reply_to_ticket env ctx dbOk s resp) = s ∧
      runStoreEffects s (close_ticket env ctx dbOk s) = s) ∧
    (ctx.channelCategoryId = some env.modmailCategoryId →
      get_user_id_from_channel dbOk s ctx.channelId = none →
      reply_to_ticket env ctx dbOk s resp = [.channelSend ctx.channelId replyNotFoundMsg] ∧
      runStoreEffects s (reply_to_ticket env ctx dbOk s resp) = s ∧
      close_ticket env ctx dbOk s = closingTail ctx.channelId ∧
      runStoreEffects s (close_ticket env ctx dbOk s) = s ∧
      (∀ u t, Effect.userSend u t ∉ close_ticket env ctx dbOk s) ∧
      Effect.channelDelete ctx.channelId ∈ close_ticket env ctx dbOk s) := by
  constructor
  · intro hne
    have hr : reply_to_ticket env ctx dbOk s resp =
        [.channelSend ctx.channelId wrongCategoryMsg] := by
      simp only [reply_to_ticket, if_pos hne]
    have hc : close_ticket env ctx dbOk s =
        [.channelSend ctx.channelId wrongCategoryMsg] := by
      simp only [close_ticket, if_pos hne]
    exact ⟨hr, hc, by rw [hr]; rfl, by rw [hc]; rfl⟩
  · intro hcat hnone
    have hne : ¬ ctx.channelCategoryId ≠ some env.modmailCategoryId := by simp [hcat]
    have hr : reply_to_ticket env ctx dbOk s resp =
        [.channelSend ctx.channelId replyNotFoundMsg] := by
      simp only [reply_to_ticket, if_neg hne, hnone]
    have hc : close_ticket env ctx dbOk s = closingTail ctx.channelId := by
      simp only [close_ticket, if_neg hne, hnone]
    refine ⟨hr, by rw [hr]; rfl, hc, by rw [hc]; rfl, ?_, ?_⟩
    · intro u t hmem
      rw [hc] at hmem
      simp [closingTail] at hmem
    · rw [hc]
      simp [closingTail]

/-- `C8` witness: a reply in a channel outside the category is rejected;
a close in the category with no mapping runs the closing tail. -/
theorem commands_outside_scope_witness :
    reply_to_ticket ⟨500, fun _ => true, fun _ => true, fun _ => true⟩ ⟨100, some 123⟩ true
        [] "hi" = [.channelSend 100 wrongCategoryMsg] ∧
    close_ticket ⟨500, fun _ => true, fun _ => true, fun _ => true⟩ ⟨100, some 500⟩ true [] =
      closingTail 100 :=
  ⟨((commands_outside_scope ⟨500, fun _ => true, fun _ => true, fun _ => true⟩ ⟨100, some 123⟩
      true [] "hi").1 (by decide)).1,
   ((commands_outside_scope ⟨500, fun _ => true, fun _ => true, fun _ => true⟩ ⟨100, some 500⟩
      true [] "hi").2 rfl (by decide)).2.2.1⟩

/-- `C10`: once past the category check, `close_ticket` always ends with
the closure announcement, the 5-second grace sleep and the deletion of
the invoking channel — even when no mapping resolves; the store deletion
and the user notification happen exactly when a (truthy) user resolved,
and they sit in the prefix before the closing tail, so they precede the
channel deletion. -/
theorem close_structure_after_category_check (env : BotEnv) (ctx : Ctx) (dbOk : Bool)
    (s : Store) (hcat : ctx.channelCategoryId = some env.modmailCategoryId) :
    ∃ pre : List Effect,
      close_ticket env ctx dbOk s = pre ++ closingTail ctx.channelId ∧
      ((∃ u, Effect.storeDelete u ∈ pre) ↔
        ∃ u, get_user_id_from_channel dbOk s ctx.channelId = some u ∧ u ≠ 0) ∧
      (∀ u, Effect.storeDelete u ∈ pre →
        get_user_id_from_channel dbOk s ctx.channelId = some u) ∧
      (∀ u t, Effect.userSend u t ∈ pre →
        get_user_id_from_channel dbOk s ctx.channelId = some u) := by
  have hne : ¬ ctx.channelCategoryId ≠ some env.modmailCategoryId := by simp [hcat]
  cases hl : get_user_id_from_channel dbOk s ctx.channelId with
  | none =>
    refine ⟨[], by simp [close_ticket, if_neg hne, hl], ?_, by simp, by simp⟩
    simp
  | some u =>
    by_cases hu : u = 0
    · subst hu
      refine ⟨[], ?_, ?_, by simp, by simp⟩
      · simp [close_ticket, if_neg hne, hl]
      · simp
    · have hmain : close_ticket env ctx dbOk s =
          (Effect.storeDelete u ::
            (if env.userExists u then
               if env.dmOk u then [Effect.userSend u closeDmMsg]
               else [Effect.logNote closeDmFailNote]
             else [])) ++ closingTail ctx.channelId := by
        simp only [close_ticket, if_neg hne, hl]
        rw [if_pos hu]
        simp
      refine ⟨_, hmain, ⟨fun _ => ⟨u, rfl, hu⟩, fun _ => ⟨u, List.mem_cons_self _ _⟩⟩,
        ?_, ?_⟩
      · intro u' hmem
        rcases List.mem_cons.mp hmem with he | hm
        · injection he with h2
          rw [h2]
        · by_cases hx : env.userExists u <;> by_cases hd : env.dmOk u <;>
            simp [hx, hd] at hm
      · intro u' t hmem
        rcases List.mem_cons.mp hmem with he | hm
        · exact absurd he (by simp)
        · by_cases hx : env.userExists u <;> by_cases hd : env.dmOk u <;>
            simp [hx, hd] at hm
          rw [hm.1]

/-- `C10` witness: the close structure at the concrete ticket
`(7, 100)`. -/
theorem close_structure_after_category_check_witness :
    ∃ pre : List Effect,
      close_ticket ⟨500, fun _ => true, fun _ => true, fun _ => true⟩ ⟨100, some 500⟩ true
          [⟨pyStrOfNat 100, pyStrOfNat 7⟩] = pre ++ closingTail 100 ∧
      ((∃ u, Effect.storeDelete u ∈ pre) ↔
        ∃ u, get_user_id_from_channel true [⟨pyStrOfNat 100, pyStrOfNat 7⟩] 100 = some u ∧
          u ≠ 0) ∧
      (∀ u, Effect.storeDelete u ∈ pre →
        get_user_id_from_channel true [⟨pyStrOfNat 100, pyStrOfNat 7⟩] 100 = some u) ∧
      (∀ u t, Effect.userSend u t ∈ pre →
        get_user_id_from_channel true [⟨pyStrOfNat 100, pyStrOfNat 7⟩] 100 = some u) :=
  close_structure_after_category_check ⟨500, fun _ => true, fun _ => true, fun _ => true⟩
    ⟨100, some 500⟩ true [⟨pyStrOfNat 100, pyStrOfNat 7⟩] rfl

end MabelModmail
